import Mathlib

/-
Shallow embedding of the weather dashboard pipeline
(src/weather-dashboard.py) and verification of its specification.

JSON payloads are modelled by an inductive `Json` type with rational
numbers for numeric leaves (JSON numbers are finite decimals).  Python
dictionaries keyed by city names are modelled as association lists with
insert-or-overwrite-in-place semantics, which preserves both lookup
behaviour and iteration (insertion) order of Python dicts.  HTTP traffic
is modelled by a function from request URL to response; fallible code
returns `Option` or `Except`.
-/

set_option autoImplicit false
set_option maxRecDepth 2000

namespace WeatherDash

/-- A JSON value as returned by `response.json()`. -/
inductive Json where
  | null
  | bool (b : Bool)
  | num (q : ℚ)
  | str (s : String)
  | arr (elems : List Json)
  | obj (fields : List (String × Json))
deriving Repr, Inhabited

/-- Lookup in a Python dict modelled as an association list (first match). -/
def dictLookup {α : Type} : List (String × α) → String → Option α
  | [], _ => none
  | (k, v) :: rest, key => if k = key then some v else dictLookup rest key

/-- `d[k] = v` on a Python dict: overwrite in place if the key is present
(keeping its position, as Python dicts do), else append at the end. -/
def dictInsert {α : Type} : List (String × α) → String → α → List (String × α)
  | [], key, v => [(key, v)]
  | (k, w) :: rest, key, v =>
    if k = key then (key, v) :: rest else (k, w) :: dictInsert rest key v

/-- `data[k]` on a JSON object; `none` models a `KeyError`. -/
def Json.getField : Json → String → Option Json
  | .obj fields, key => dictLookup fields key
  | _, _ => none

/-- `data[i]` on a JSON array; `none` models an `IndexError`. -/
def Json.getIdx : Json → Nat → Option Json
  | .arr elems, i => elems.get? i
  | _, _ => none

/-- Extract a numeric leaf. -/
def Json.getNum : Json → Option ℚ
  | .num q => some q
  | _ => none

/-- Extract a string leaf. -/
def Json.getStr : Json → Option String
  | .str s => some s
  | _ => none

/-- Extract an array. -/
def Json.getArr : Json → Option (List Json)
  | .arr elems => some elems
  | _ => none

/-- One flattened row of the current-weather table (`prepare_data`).
`prepare_data` only dereferences keys: the leaves are stored untyped,
exactly as the Python row dict stores whatever object is present.  The
single exception is `dt`, which `datetime.fromtimestamp` requires to be
a number; `timestamp` holds its value as epoch seconds. -/
structure CurrentRecord where
  city : String
  temperature : Json
  feels_like : Json
  humidity : Json
  pressure : Json
  wind_speed : Json
  description : Json
  timestamp : ℚ
deriving Repr

/-- One flattened row of the forecast table (`prepare_data`); leaves
untyped as in `CurrentRecord`, `dt_txt` stored as-is. -/
structure ForecastRecord where
  city : String
  temperature : Json
  feels_like : Json
  humidity : Json
  pressure : Json
  wind_speed : Json
  description : Json
  timestamp : ℚ
  forecast_time : Json
deriving Repr

/-- An HTTP response: status code and parsed JSON body. -/
structure HttpResponse where
  status : Nat
  body : Json

/-- The mutable state of the `WeatherDashboard` object.  `forecastData`,
`currentDf` and `forecastDf` do not exist before the corresponding methods
run in Python; they start out empty here, which no claim distinguishes. -/
structure WeatherDashboard where
  apiKey : String
  baseUrl : String
  cities : List String
  weatherData : List (String × Json)
  forecastData : List (String × Json)
  currentDf : List CurrentRecord
  forecastDf : List ForecastRecord

/-- `WeatherDashboard.__init__`: `api_key or os.getenv(..)` with Python
falsiness (empty string counts as absent), raising `ValueError` when no
key results. -/
def pyOrKey (a b : Option String) : Option String :=
  match a with
  | some s => if s = "" then b else some s
  | none => b

/-- The `ValueError` message raised by `__init__` when no API key is given. -/
def apiKeyErrMsg : String :=
  "API key is required. Set OPENWEATHER_API_KEY environment variable or pass it as an argument."

/-- `WeatherDashboard.__init__(api_key)` with the environment variable
`OPENWEATHER_API_KEY` passed explicitly. -/
def WeatherDashboard.init (apiKeyArg envKey : Option String) :
    Except String WeatherDashboard :=
  match pyOrKey apiKeyArg envKey with
  | none => .error apiKeyErrMsg
  | some k =>
    if k = "" then .error apiKeyErrMsg
    else .ok
      { apiKey := k
        baseUrl := "https://api.openweathermap.org/data/2.5"
        cities := []
        weatherData := []
        forecastData := []
        currentDf := []
        forecastDf := [] }

/-- `add_city`. -/
def addCity (dash : WeatherDashboard) (cityName : String) : WeatherDashboard :=
  { dash with cities := dash.cities ++ [cityName] }

/-- URL of the current-weather request for one city. -/
def currentWeatherUrl (baseUrl apiKey city : String) : String :=
  baseUrl ++ "/weather?q=" ++ city ++ "&appid=" ++ apiKey ++ "&units=metric"

/-- URL of the forecast request for one city. -/
def forecastUrl (baseUrl apiKey city : String) : String :=
  baseUrl ++ "/forecast?q=" ++ city ++ "&appid=" ++ apiKey ++ "&units=metric"

/-- The line printed by `fetch_current_weather` on a non-200 status. -/
def currentErrMsg (city : String) (status : Nat) : String :=
  "Error fetching data for " ++ city ++ ": " ++ toString status

/-- The line printed by `fetch_forecast` on a non-200 status. -/
def forecastErrMsg (city : String) (status : Nat) : String :=
  "Error fetching forecast for " ++ city ++ ": " ++ toString status

/-- Result of one fetch loop: the dict being filled, the error lines
printed, and the GET requests issued, each in execution order. -/
structure FetchOut where
  data : List (String × Json)
  logs : List String
  requests : List String
deriving Repr

/-- The per-city fetch loop shared by both fetchers: for each city issue
one GET request; on status 200 store the body under the city key, else
print an error line.  `mkUrl` and `mkErr` are the only differences
between the two loops in the source. -/
def fetchLoop (rsp : String → HttpResponse) (mkUrl : String → String)
    (mkErr : String → Nat → String) :
    List String → List (String × Json) → FetchOut
  | [], acc => { data := acc, logs := [], requests := [] }
  | city :: rest, acc =>
    let url := mkUrl city
    let r := rsp url
    if r.status = 200 then
      let out := fetchLoop rsp mkUrl mkErr rest (dictInsert acc city r.body)
      { out with requests := url :: out.requests }
    else
      let out := fetchLoop rsp mkUrl mkErr rest acc
      { out with logs := mkErr city r.status :: out.logs
                 requests := url :: out.requests }

/-- Result of one fetcher method: the updated object plus observable
side effects. -/
structure StepResult where
  dash : WeatherDashboard
  logs : List String
  requests : List String

/-- `fetch_current_weather`: fills `self.weather_data` WITHOUT resetting
it first (the dict is created once in `__init__`). -/
def fetchCurrentWeather (dash : WeatherDashboard) (rsp : String → HttpResponse) :
    StepResult :=
  let out := fetchLoop rsp (currentWeatherUrl dash.baseUrl dash.apiKey)
    currentErrMsg dash.cities dash.weatherData
  { dash := { dash with weatherData := out.data }
    logs := out.logs
    requests := out.requests }

/-- `fetch_forecast(days=5)`: resets `self.forecast_data = {}` and then
fills it.  The `days` parameter appears in the signature but is never
read in the body, exactly as in the source. -/
def fetchForecast (dash : WeatherDashboard) (rsp : String → HttpResponse)
    (days : Nat) : StepResult :=
  let out := fetchLoop rsp (forecastUrl dash.baseUrl dash.apiKey)
    forecastErrMsg dash.cities []
  { dash := { dash with forecastData := out.data }
    logs := out.logs
    requests := out.requests }

/-- `data[main]` then `[k2]`. -/
def getPath2 (data : Json) (k1 k2 : String) : Option Json :=
  (data.getField k1).bind (fun m => m.getField k2)

/-- The record built for one city in the current-weather half of
`prepare_data`; `none` models the uncaught `KeyError`-equivalent raised
when a dereferenced path is missing.  No leaf type is checked — the
values are stored as-is — except `dt`, whose value is passed to
`datetime.fromtimestamp` and must therefore be a number. -/
def extractCurrentRecord (city : String) (data : Json) : Option CurrentRecord :=
  match getPath2 data "main" "temp",
      getPath2 data "main" "feels_like",
      getPath2 data "main" "humidity",
      getPath2 data "main" "pressure",
      getPath2 data "wind" "speed",
      ((data.getField "weather").bind (fun w => w.getIdx 0)).bind
        (fun w0 => w0.getField "description"),
      (data.getField "dt").bind Json.getNum with
  | some t, some fl, some h, some p, some ws, some d, some dt =>
    some { city := city, temperature := t, feels_like := fl, humidity := h,
           pressure := p, wind_speed := ws, description := d, timestamp := dt }
  | _, _, _, _, _, _, _ => none

/-- The record built for one forecast slot (`item` of `data[list]`):
same untyped dereferences, `dt` numeric for `fromtimestamp`, `dt_txt`
stored as-is. -/
def extractForecastRecord (city : String) (item : Json) : Option ForecastRecord :=
  match getPath2 item "main" "temp",
      getPath2 item "main" "feels_like",
      getPath2 item "main" "humidity",
      getPath2 item "main" "pressure",
      getPath2 item "wind" "speed",
      ((item.getField "weather").bind (fun w => w.getIdx 0)).bind
        (fun w0 => w0.getField "description"),
      (item.getField "dt").bind Json.getNum,
      item.getField "dt_txt" with
  | some t, some fl, some h, some p, some ws, some d, some dt, some dtxt =>
    some { city := city, temperature := t, feels_like := fl, humidity := h,
           pressure := p, wind_speed := ws, description := d, timestamp := dt,
           forecast_time := dtxt }
  | _, _, _, _, _, _, _, _ => none

/-- The `for city, data in self.weather_data.items()` loop of
`prepare_data`, building `current_weather_records` in dict order. -/
def prepareCurrent : List (String × Json) → Option (List CurrentRecord)
  | [] => some []
  | (city, data) :: rest =>
    match extractCurrentRecord city data, prepareCurrent rest with
    | some r, some rs => some (r :: rs)
    | _, _ => none

/-- The inner `for item in data[list]` loop for one city. -/
def prepareForecastSlots (city : String) : List Json → Option (List ForecastRecord)
  | [] => some []
  | item :: rest =>
    match extractForecastRecord city item, prepareForecastSlots city rest with
    | some r, some rs => some (r :: rs)
    | _, _ => none

/-- All forecast rows contributed by one city: `data[list]` must exist
and be an array, then one record per slot. -/
def prepareForecastCity (city : String) (data : Json) : Option (List ForecastRecord) :=
  match (data.getField "list").bind Json.getArr with
  | some items => prepareForecastSlots city items
  | none => none

/-- The `for city, data in self.forecast_data.items()` loop, concatenating
per-city rows in dict order. -/
def prepareForecast : List (String × Json) → Option (List ForecastRecord)
  | [] => some []
  | (city, data) :: rest =>
    match prepareForecastCity city data, prepareForecast rest with
    | some rs, some rest2 => some (rs ++ rest2)
    | _, _ => none

/-- `prepare_data`: rebuilds both tables from the raw mappings.  `none`
models the uncaught `KeyError`-equivalent. -/
def prepareData (dash : WeatherDashboard) : Option WeatherDashboard :=
  match prepareCurrent dash.weatherData, prepareForecast dash.forecastData with
  | some cur, some fc => some { dash with currentDf := cur, forecastDf := fc }
  | _, _ => none

/-- `visualize_forecast_trends`: the rows actually plotted, given the
wall-clock time `now` at render (epoch seconds).  The frame is first
filtered to `timestamp <= now + timedelta(days=5)`, then one line is
drawn per city of `self.cities` from the rows of that city. -/
def visualizeForecastTrends (dash : WeatherDashboard) (now : ℚ) :
    List ForecastRecord :=
  let endDate := now + 5 * 86400
  let filtered := dash.forecastDf.filter (fun r => r.timestamp ≤ endDate)
  (dash.cities.map (fun city => filtered.filter (fun r => r.city = city))).flatten

/-- Python `round` to integer, half to even, as used by `%.1f` formatting. -/
def roundHalfEven (q : ℚ) : ℤ :=
  if Int.fract q < 1 / 2 then ⌊q⌋
  else if 1 / 2 < Int.fract q then ⌊q⌋ + 1
  else if ⌊q⌋ % 2 = 0 then ⌊q⌋ else ⌊q⌋ + 1

/-- Python `f"{x:.1f}"`: one decimal digit, ties to even. -/
def fmt1 (q : ℚ) : String :=
  let n := roundHalfEven (q * 10)
  let sign := if n < 0 then "-" else ""
  let m := n.natAbs
  sign ++ toString (m / 10) ++ "." ++ toString (m % 10)

/-- Python string interpolation of a JSON-sourced number: an integer
prints with no decimal point; a finite decimal prints its digits.  (A
rational that is not a finite decimal cannot arise from JSON; it falls
back to `num/den`.) -/
def pyStr (q : ℚ) : String :=
  match (List.range 40).find? (fun k => (q * (10 : ℚ) ^ k).den = 1) with
  | some 0 => toString q.num
  | some (k + 1) =>
    let j := k + 1
    let n := (q * (10 : ℚ) ^ j).num
    let sign := if n < 0 then "-" else ""
    let m := n.natAbs
    let fracDigits := toString (m % 10 ^ j)
    let pad := String.mk (List.replicate (j - fracDigits.length) '0')
    sign ++ toString (m / 10 ^ j) ++ "." ++ pad ++ fracDigits
  | none => toString q.num ++ "/" ++ toString q.den

/-- Python `str.capitalize()`: first character uppercased, the rest
lowercased. -/
def pyCapitalize (s : String) : String :=
  match s.data with
  | [] => ""
  | c :: rest => String.mk (c.toUpper :: rest.map Char.toLower)

mutual

/-- Python `repr` of a JSON-sourced value, used by `str()` inside
containers. -/
def pyRepr : Json → String
  | .null => "None"
  | .bool b => if b then "True" else "False"
  | .num q => pyStr q
  | .str s => "\x27" ++ s ++ "\x27"
  | .arr xs => "[" ++ pyReprList xs ++ "]"
  | .obj fs => "\x7b" ++ pyReprFields fs ++ "\x7d"

/-- Elements of a list, comma-separated as Python prints them. -/
def pyReprList : List Json → String
  | [] => ""
  | [j] => pyRepr j
  | j :: rest => pyRepr j ++ ", " ++ pyReprList rest

/-- Entries of a dict, comma-separated as Python prints them. -/
def pyReprFields : List (String × Json) → String
  | [] => ""
  | [(k, j)] => "\x27" ++ k ++ "\x27: " ++ pyRepr j
  | (k, j) :: rest => "\x27" ++ k ++ "\x27: " ++ pyRepr j ++ ", " ++ pyReprFields rest

end

/-- Python `str(x)` of a JSON-sourced value, as plain f-string
interpolation applies it; total, like `str()`. -/
def pyStrJson : Json → String
  | .str s => s
  | j => pyRepr j

/-- One `## {city}` section of the Markdown report (`create_weather_report`
loop body).  The f-string applies `:.1f` to temperature and feels-like
(requires a number), `.capitalize()` to the description (requires a
string) and plain `str()` to the rest; `none` models the error Python
raises when one of the first three leaves has the wrong type. -/
def reportSection (r : CurrentRecord) : Option String :=
  match r.temperature.getNum, r.feels_like.getNum, r.description.getStr with
  | some t, some fl, some d =>
    some ("## " ++ r.city ++ "\n\n" ++
      "- **Temperature**: " ++ fmt1 t ++ "°C (Feels like: " ++
        fmt1 fl ++ "°C)\n" ++
      "- **Description**: " ++ pyCapitalize d ++ "\n" ++
      "- **Humidity**: " ++ pyStrJson r.humidity ++ "%\n" ++
      "- **Wind Speed**: " ++ pyStrJson r.wind_speed ++ " m/s\n" ++
      "- **Pressure**: " ++ pyStrJson r.pressure ++ " hPa\n\n")
  | _, _, _ => none

/-- `create_weather_report`: the full Markdown text written to
`output/weather_report.md`, given the formatted generation time;
`none` models an uncaught formatting error in some row. -/
def createWeatherReport (dash : WeatherDashboard) (nowStr : String) :
    Option String :=
  (dash.currentDf.mapM reportSection).map (fun secs =>
    "# Current Weather Report\n\n" ++ "Generated on: " ++ nowStr ++ "\n\n" ++
    String.join secs)

/-- Naive substring search on character lists. -/
def charsHavePre : List Char → List Char → Bool
  | [], _ => true
  | _ :: _, [] => false
  | a :: as, b :: bs => a = b && charsHavePre as bs

/-- Does `pat` occur as a contiguous substring of `s`? -/
def charsContain (pat : List Char) : List Char → Bool
  | [] => charsHavePre pat []
  | c :: rest => charsHavePre pat (c :: rest) || charsContain pat rest

/-- Substring test on strings. -/
def strContains (s pat : String) : Bool :=
  charsContain pat.data s.data

/-- `run_dashboard` up to the point that decides success or an uncaught
error: fetch current weather, fetch forecast (default `days=5`), then
`prepare_data`; a `KeyError`-equivalent there propagates.  On success the
prepared object and the lines printed so far are returned. -/
def runDashboard (dash : WeatherDashboard) (rsp : String → HttpResponse) :
    Except String (WeatherDashboard × List String) :=
  let s1 := fetchCurrentWeather dash rsp
  let s2 := fetchForecast s1.dash rsp 5
  match prepareData s2.dash with
  | none => .error "KeyError"
  | some d =>
    .ok (d, s1.logs ++ s2.logs ++
      ["Report generated: output/weather_report.md",
       "Dashboard generated successfully!",
       "Check the \x27output\x27 directory for all visualizations and reports."])

/-- Result of the whole process: Python returns from `main` normally in
every branch, so the interpreter exit code is always 0. -/
structure MainResult where
  exitCode : Nat
  output : List String
deriving Repr, DecidableEq

/-- The `except Exception` branch of `main`: the error and the
usage-recovery message. -/
def errorOutput (e : String) : List String :=
  ["Error: " ++ e,
   "\nTo use this dashboard:",
   "1. Get a free API key from https://openweathermap.org/",
   "2. Set it as an environment variable OPENWEATHER_API_KEY or pass it with --api-key",
   "3. Run the script again"]

/-- `main` after argument parsing: construct the dashboard (which may
raise for a missing API key), add each city, run the pipeline; any
exception is caught here, printed with the usage hint, and the function
returns normally. -/
def mainEntry (cliCities : List String) (apiKeyArg envKey : Option String)
    (rsp : String → HttpResponse) : MainResult :=
  match WeatherDashboard.init apiKeyArg envKey with
  | .error e => { exitCode := 0, output := errorOutput e }
  | .ok dash0 =>
    let dash1 := cliCities.foldl addCity dash0
    match runDashboard dash1 rsp with
    | .error e => { exitCode := 0, output := errorOutput e }
    | .ok (_, logs) => { exitCode := 0, output := logs }

/-- What `prepare_data` actually requires of a current-weather payload:
every dereferenced path exists (any leaf value), and `dt` is a number
because its value goes to `datetime.fromtimestamp`.  No other leaf type
is checked by the code. -/
def hasCurrentFields (data : Json) : Bool :=
  (getPath2 data "main" "temp").isSome &&
  (getPath2 data "main" "feels_like").isSome &&
  (getPath2 data "main" "humidity").isSome &&
  (getPath2 data "main" "pressure").isSome &&
  (getPath2 data "wind" "speed").isSome &&
  (((data.getField "weather").bind (fun w => w.getIdx 0)).bind
    (fun w0 => w0.getField "description")).isSome &&
  ((data.getField "dt").bind Json.getNum).isSome

/-- What `prepare_data` requires of one forecast slot: the same
dereferenced paths, `dt` numeric for `fromtimestamp`, `dt_txt` merely
present. -/
def hasSlotFields (item : Json) : Bool :=
  (getPath2 item "main" "temp").isSome &&
  (getPath2 item "main" "feels_like").isSome &&
  (getPath2 item "main" "humidity").isSome &&
  (getPath2 item "main" "pressure").isSome &&
  (getPath2 item "wind" "speed").isSome &&
  (((item.getField "weather").bind (fun w => w.getIdx 0)).bind
    (fun w0 => w0.getField "description")).isSome &&
  ((item.getField "dt").bind Json.getNum).isSome &&
  (item.getField "dt_txt").isSome

/-- The field-presence reading of the C4 claim, following the claim's
words only: every listed path of a current-weather payload exists,
with no constraint on any leaf value (`dt` included).  Kept separate
from `hasCurrentFields` to compare the claim with the code. -/
def claimedCurrentFieldsPresent (data : Json) : Bool :=
  (getPath2 data "main" "temp").isSome &&
  (getPath2 data "main" "feels_like").isSome &&
  (getPath2 data "main" "humidity").isSome &&
  (getPath2 data "main" "pressure").isSome &&
  (getPath2 data "wind" "speed").isSome &&
  (((data.getField "weather").bind (fun w => w.getIdx 0)).bind
    (fun w0 => w0.getField "description")).isSome &&
  (data.getField "dt").isSome

/-- Field-presence check for a forecast payload: `list` exists, is an
array, and every slot has the expected fields. -/
def hasForecastFields (data : Json) : Bool :=
  match (data.getField "list").bind Json.getArr with
  | some items => items.all hasSlotFields
  | none => false

/-- The slots of a forecast payload (`data[list]`), empty when absent. -/
def forecastSlots (data : Json) : List Json :=
  ((data.getField "list").bind Json.getArr).getD []

/-- Number of rows of the current-weather table belonging to one city. -/
def countCityCur (df : List CurrentRecord) (city : String) : Nat :=
  (df.filter (fun r => r.city = city)).length

/-- Number of rows of the forecast table belonging to one city. -/
def countCityFor (df : List ForecastRecord) (city : String) : Nat :=
  (df.filter (fun r => r.city = city)).length

/-! ### Concrete sample data for evaluation -/

/-- A well-formed current-weather payload, using the values of the
report scenario in the spec. -/
def sampleCurrentPayload : Json :=
  .obj [("main", .obj [("temp", .num 20.5), ("feels_like", .num 19.8),
          ("humidity", .num 60), ("pressure", .num 1012)]),
        ("wind", .obj [("speed", .num 3.2)]),
        ("weather", .arr [.obj [("description", .str "clear sky")]]),
        ("dt", .num 1700000000)]

/-- A well-formed forecast slot. -/
def sampleSlot (t dt : ℚ) (dtxt : String) : Json :=
  .obj [("main", .obj [("temp", .num t), ("feels_like", .num t),
          ("humidity", .num 60), ("pressure", .num 1012)]),
        ("wind", .obj [("speed", .num 3.2)]),
        ("weather", .arr [.obj [("description", .str "scattered clouds")]]),
        ("dt", .num dt), ("dt_txt", .str dtxt)]

/-- A well-formed forecast payload with two slots. -/
def sampleForecastPayload : Json :=
  .obj [("list", .arr [sampleSlot 10 1700000000 "2023-11-14 22:00:00",
                       sampleSlot 11 1700010800 "2023-11-15 01:00:00"])]

/-- The row `prepare_data` builds from `sampleCurrentPayload`. -/
def sampleCurrentRecord : CurrentRecord :=
  { city := "Moscow", temperature := .num 20.5, feels_like := .num 19.8,
    humidity := .num 60, pressure := .num 1012, wind_speed := .num 3.2,
    description := .str "clear sky", timestamp := 1700000000 }

/-- The row `prepare_data` builds from one `sampleSlot`. -/
def sampleForecastRecord (t dt : ℚ) (dtxt : String) : ForecastRecord :=
  { city := "Moscow", temperature := .num t, feels_like := .num t,
    humidity := .num 60, pressure := .num 1012, wind_speed := .num 3.2,
    description := .str "scattered clouds", timestamp := dt,
    forecast_time := .str dtxt }

/-- A current-weather payload in which every field the C4 claim lists
is present, but `dt` holds a string: `datetime.fromtimestamp` rejects
it, so `prepare_data` fails even though nothing is absent. -/
def badDtPayload : Json :=
  .obj [("main", .obj [("temp", .num 20.5), ("feels_like", .num 19.8),
          ("humidity", .num 60), ("pressure", .num 1012)]),
        ("wind", .obj [("speed", .num 3.2)]),
        ("weather", .arr [.obj [("description", .str "clear sky")]]),
        ("dt", .str "2023-11-14 22:00:00")]

/-- A dashboard tracking one city with no data yet. -/
def cexDash : WeatherDashboard :=
  { apiKey := "testkey", baseUrl := "https://api.openweathermap.org/data/2.5",
    cities := ["Moscow"], weatherData := [], forecastData := [],
    currentDf := [], forecastDf := [] }

/-- A server that answers every request with status 404. -/
def cexRsp : String → HttpResponse := fun _ => { status := 404, body := Json.null }

/-- A server that answers every request with status 200 and the sample
current-weather payload. -/
def okCurRsp : String → HttpResponse :=
  fun _ => { status := 200, body := sampleCurrentPayload }

/-- A server that answers every request with status 200 and the sample
forecast payload. -/
def okForRsp : String → HttpResponse :=
  fun _ => { status := 200, body := sampleForecastPayload }

/-- A dashboard holding both raw mappings, before `prepare_data`. -/
def sampleDash : WeatherDashboard :=
  { cexDash with weatherData := [("Moscow", sampleCurrentPayload)],
                 forecastData := [("Moscow", sampleForecastPayload)] }

/-- `sampleDash` after `prepare_data`. -/
def sampleDashPrepared : WeatherDashboard :=
  { sampleDash with
      currentDf := [sampleCurrentRecord],
      forecastDf := [sampleForecastRecord 10 1700000000 "2023-11-14 22:00:00",
                     sampleForecastRecord 11 1700010800 "2023-11-15 01:00:00"] }

/-- A dashboard whose stored Moscow payload has a string `dt`. -/
def badDtDash : WeatherDashboard :=
  { cexDash with weatherData := [("Moscow", badDtPayload)] }

/-- A dashboard with a stale current-weather payload left from an
earlier fetch. -/
def staleDash : WeatherDashboard :=
  { cexDash with weatherData := [("Moscow", sampleCurrentPayload)] }

/-- `staleDash` after a failed re-fetch and `prepare_data`: the stale
row is still there. -/
def staleDashPrepared : WeatherDashboard :=
  { staleDash with currentDf := [sampleCurrentRecord] }

/-- `cexDash` after a successful current-weather fetch and
`prepare_data`. -/
def c1Prepared : WeatherDashboard :=
  { cexDash with weatherData := [("Moscow", sampleCurrentPayload)],
                 currentDf := [sampleCurrentRecord] }

/-- `cexDash` after a successful forecast fetch and `prepare_data`. -/
def c2Prepared : WeatherDashboard :=
  { cexDash with forecastData := [("Moscow", sampleForecastPayload)],
                 forecastDf := [sampleForecastRecord 10 1700000000 "2023-11-14 22:00:00",
                                sampleForecastRecord 11 1700010800 "2023-11-15 01:00:00"] }

/-- A forecast row inside the 5-day window when `now = 1700000000`. -/
def c6RowIn : ForecastRecord := sampleForecastRecord 10 1700000000 "2023-11-14 22:00:00"

/-- A forecast row past the 5-day window when `now = 1700000000`
(`1700500000 > 1700000000 + 432000`). -/
def c6RowOut : ForecastRecord := sampleForecastRecord 11 1700500000 "2023-11-20 15:00:00"

/-- A dashboard whose forecast table holds one row inside and one row
past the plotting window. -/
def c6Dash : WeatherDashboard :=
  { cexDash with forecastDf := [c6RowIn, c6RowOut] }

/-- The current-weather row of the report scenario. -/
def c7Dash : WeatherDashboard :=
  { cexDash with currentDf := [sampleCurrentRecord] }

end WeatherDash

/-! ## Verification -/

namespace WeatherDash

/-! ### Dictionary lemmas -/

theorem dictLookup_dictInsert_self {α : Type} (d : List (String × α)) (k : String)
    (v : α) : dictLookup (dictInsert d k v) k = some v := by
  induction d with
  | nil => simp [dictInsert, dictLookup]
  | cons p rest ih =>
    obtain ⟨k0, v0⟩ := p
    by_cases h : k0 = k
    · subst h; simp [dictInsert, dictLookup]
    · simp [dictInsert, dictLookup, h, ih]

theorem dictLookup_dictInsert_ne {α : Type} (d : List (String × α)) (k c : String)
    (v : α) (h : c ≠ k) :
    dictLookup (dictInsert d k v) c = dictLookup d c := by
  induction d with
  | nil => simp [dictInsert, dictLookup, Ne.symm h]
  | cons p rest ih =>
    obtain ⟨k0, v0⟩ := p
    by_cases hk : k0 = k
    · subst hk; simp [dictInsert, dictLookup, Ne.symm h]
    · simp [dictInsert, dictLookup, hk, ih]

theorem dictLookup_eq_none_iff {α : Type} (d : List (String × α)) (c : String) :
    dictLookup d c = none ↔ c ∉ d.map Prod.fst := by
  induction d with
  | nil => simp [dictLookup]
  | cons p rest ih =>
    obtain ⟨k0, v0⟩ := p
    by_cases h : k0 = c
    · subst h; simp [dictLookup]
    · simp [dictLookup, h, ih, Ne.symm h]

theorem dictInsert_keys {α : Type} (d : List (String × α)) (k : String) (v : α) :
    (dictInsert d k v).map Prod.fst =
      if k ∈ d.map Prod.fst then d.map Prod.fst else d.map Prod.fst ++ [k] := by
  induction d with
  | nil => simp [dictInsert]
  | cons p rest ih =>
    obtain ⟨k0, v0⟩ := p
    by_cases h : k0 = k
    · subst h; simp [dictInsert]
    · simp only [dictInsert, if_neg h, List.map_cons, ih]
      by_cases hk : k ∈ rest.map Prod.fst <;>
        simp [hk, Ne.symm h]

theorem dictInsert_keys_nodup {α : Type} (d : List (String × α)) (k : String)
    (v : α) (h : (d.map Prod.fst).Nodup) :
    ((dictInsert d k v).map Prod.fst).Nodup := by
  rw [dictInsert_keys]
  by_cases hk : k ∈ d.map Prod.fst
  · simpa [hk] using h
  · simp only [hk, if_false]
    rw [List.nodup_append]
    exact ⟨h, List.nodup_singleton k, by simpa using hk⟩

/-! ### Fetch loop lemmas -/

theorem fetchLoop_data_lookup (rsp : String → HttpResponse) (mkUrl : String → String)
    (mkErr : String → Nat → String) (c : String) (cities : List String) :
    ∀ acc : List (String × Json),
      dictLookup (fetchLoop rsp mkUrl mkErr cities acc).data c =
        if c ∈ cities ∧ (rsp (mkUrl c)).status = 200
        then some (rsp (mkUrl c)).body
        else dictLookup acc c := by
  induction cities with
  | nil => intro acc; simp [fetchLoop]
  | cons city rest ih =>
    intro acc
    by_cases hc : c = city
    · subst hc
      by_cases hst : (rsp (mkUrl c)).status = 200
      · simp only [fetchLoop, hst, if_true, ih, hst, List.mem_cons, true_or,
          and_true, if_true, dictLookup_dictInsert_self]
        by_cases hr : c ∈ rest <;> simp [hr, hst, dictLookup_dictInsert_self]
      · simp only [fetchLoop, hst, if_false, ih]
        by_cases hr : c ∈ rest <;> simp [hr, hst]
    · by_cases hst : (rsp (mkUrl city)).status = 200
      · simp only [fetchLoop, hst, if_true, ih]
        by_cases hr : c ∈ rest ∧ (rsp (mkUrl c)).status = 200 <;>
          simp [hr, hc, dictLookup_dictInsert_ne _ _ _ _ hc]
      · simp only [fetchLoop, hst, if_false, ih]
        by_cases hr : c ∈ rest ∧ (rsp (mkUrl c)).status = 200 <;>
          simp [hr, hc]

theorem fetchLoop_keys_nodup (rsp : String → HttpResponse) (mkUrl : String → String)
    (mkErr : String → Nat → String) (cities : List String) :
    ∀ acc : List (String × Json), (acc.map Prod.fst).Nodup →
      (((fetchLoop rsp mkUrl mkErr cities acc).data).map Prod.fst).Nodup := by
  induction cities with
  | nil => intro acc h; simpa [fetchLoop] using h
  | cons city rest ih =>
    intro acc h
    by_cases hst : (rsp (mkUrl city)).status = 200
    · simp only [fetchLoop, hst, if_true]
      exact ih _ (dictInsert_keys_nodup _ _ _ h)
    · simp only [fetchLoop, hst, if_false]
      exact ih _ h

theorem fetchLoop_logs_mem (rsp : String → HttpResponse) (mkUrl : String → String)
    (mkErr : String → Nat → String) (c : String) (cities : List String) :
    ∀ acc : List (String × Json), c ∈ cities → (rsp (mkUrl c)).status ≠ 200 →
      mkErr c (rsp (mkUrl c)).status ∈ (fetchLoop rsp mkUrl mkErr cities acc).logs := by
  induction cities with
  | nil => intro acc h; cases h
  | cons city rest ih =>
    intro acc hc hst
    rcases List.mem_cons.mp hc with h | h
    · subst h
      simp [fetchLoop, hst]
    · by_cases hst0 : (rsp (mkUrl city)).status = 200
      · simp only [fetchLoop, hst0, if_true]
        exact ih _ h hst
      · simp only [fetchLoop, hst0, if_false]
        exact List.mem_cons_of_mem _ (ih _ h hst)

/-! ### Transformer lemmas -/

theorem extractCurrentRecord_city (c : String) (data : Json) (r : CurrentRecord)
    (h : extractCurrentRecord c data = some r) : r.city = c := by
  unfold extractCurrentRecord at h
  split at h
  · cases h; rfl
  · exact Option.noConfusion h

theorem extractForecastRecord_city (c : String) (item : Json) (r : ForecastRecord)
    (h : extractForecastRecord c item = some r) : r.city = c := by
  unfold extractForecastRecord at h
  split at h
  · cases h; rfl
  · exact Option.noConfusion h

theorem prepareCurrent_cons (city : String) (data : Json)
    (rest : List (String × Json)) (df : List CurrentRecord)
    (h : prepareCurrent ((city, data) :: rest) = some df) :
    ∃ r rs, extractCurrentRecord city data = some r ∧
      prepareCurrent rest = some rs ∧ df = r :: rs := by
  simp only [prepareCurrent] at h
  rcases hre : extractCurrentRecord city data with _ | r <;> rw [hre] at h
  · exact Option.noConfusion h
  rcases hrest : prepareCurrent rest with _ | rs <;> rw [hrest] at h
  · exact Option.noConfusion h
  exact ⟨r, rs, rfl, rfl, (Option.some_inj.mp h).symm⟩

theorem prepareCurrent_count (wd : List (String × Json)) :
    ∀ df : List CurrentRecord, prepareCurrent wd = some df →
      (wd.map Prod.fst).Nodup → ∀ c : String,
      countCityCur df c = if (dictLookup wd c).isSome then 1 else 0 := by
  induction wd with
  | nil =>
    intro df h _ c
    simp only [prepareCurrent, Option.some_inj] at h
    subst h
    simp [countCityCur, dictLookup]
  | cons p rest ih =>
    obtain ⟨k, data⟩ := p
    intro df h hnd c
    obtain ⟨r, rs, hre, hrest, hdf⟩ := prepareCurrent_cons k data rest df h
    subst hdf
    have hcity : r.city = k := extractCurrentRecord_city k data r hre
    have hnd1 : k ∉ rest.map Prod.fst := by
      simp only [List.map_cons, List.nodup_cons] at hnd
      exact hnd.1
    have hnd2 : (rest.map Prod.fst).Nodup := by
      simp only [List.map_cons, List.nodup_cons] at hnd
      exact hnd.2
    have ihc := ih rs hrest hnd2 c
    by_cases hk : k = c
    · have hnone : dictLookup rest c = none :=
        (dictLookup_eq_none_iff rest c).mpr (hk ▸ hnd1)
      rw [hnone] at ihc
      simp only [Option.isSome_none, Bool.false_eq_true, if_false] at ihc
      have hfil : countCityCur (r :: rs) c = countCityCur rs c + 1 := by
        simp [countCityCur, List.filter_cons, hcity, hk]
      rw [hfil, ihc]
      simp [dictLookup, hk]
    · have hfil : countCityCur (r :: rs) c = countCityCur rs c := by
        simp [countCityCur, List.filter_cons, hcity, hk]
      rw [hfil, ihc]
      simp [dictLookup, hk]

theorem prepareCurrent_cities (wd : List (String × Json)) :
    ∀ df : List CurrentRecord, prepareCurrent wd = some df →
      ∀ r ∈ df, r.city ∈ wd.map Prod.fst := by
  induction wd with
  | nil =>
    intro df h r hr
    simp only [prepareCurrent, Option.some_inj] at h
    subst h
    cases hr
  | cons p rest ih =>
    obtain ⟨k, data⟩ := p
    intro df h r hr
    obtain ⟨r0, rs, hre, hrest, hdf⟩ := prepareCurrent_cons k data rest df h
    subst hdf
    rcases List.mem_cons.mp hr with h0 | h0
    · subst h0
      simp only [List.map_cons]
      exact List.mem_cons.mpr (Or.inl (extractCurrentRecord_city k data r hre))
    · simp only [List.map_cons]
      exact List.mem_cons_of_mem _ (ih rs hrest r h0)

theorem prepareCurrent_exists_row (wd : List (String × Json)) :
    ∀ df : List CurrentRecord, prepareCurrent wd = some df →
      ∀ c : String, (dictLookup wd c).isSome → ∃ r ∈ df, r.city = c := by
  induction wd with
  | nil => intro df h c hc; simp [dictLookup] at hc
  | cons p rest ih =>
    obtain ⟨k, data⟩ := p
    intro df h c hc
    obtain ⟨r, rs, hre, hrest, hdf⟩ := prepareCurrent_cons k data rest df h
    subst hdf
    by_cases hk : k = c
    · subst hk
      exact ⟨r, List.mem_cons_self r rs, extractCurrentRecord_city k data r hre⟩
    · simp only [dictLookup, if_neg hk] at hc
      obtain ⟨r0, hr0, hr0c⟩ := ih rs hrest c hc
      exact ⟨r0, List.mem_cons_of_mem _ hr0, hr0c⟩

theorem prepareForecastSlots_cons (city : String) (item : Json) (rest : List Json)
    (df : List ForecastRecord)
    (h : prepareForecastSlots city (item :: rest) = some df) :
    ∃ r rs, extractForecastRecord city item = some r ∧
      prepareForecastSlots city rest = some rs ∧ df = r :: rs := by
  simp only [prepareForecastSlots] at h
  rcases hre : extractForecastRecord city item with _ | r <;> rw [hre] at h
  · exact Option.noConfusion h
  rcases hrest : prepareForecastSlots city rest with _ | rs <;> rw [hrest] at h
  · exact Option.noConfusion h
  exact ⟨r, rs, rfl, rfl, (Option.some_inj.mp h).symm⟩

theorem prepareForecastSlots_spec (city : String) (items : List Json) :
    ∀ rs : List ForecastRecord, prepareForecastSlots city items = some rs →
      rs.length = items.length ∧ ∀ r ∈ rs, r.city = city := by
  induction items with
  | nil =>
    intro rs h
    simp only [prepareForecastSlots, Option.some_inj] at h
    subst h
    simp
  | cons item rest ih =>
    intro rs h
    obtain ⟨r, rs0, hre, hrest, hdf⟩ := prepareForecastSlots_cons city item rest rs h
    subst hdf
    obtain ⟨hlen, hcities⟩ := ih rs0 hrest
    refine ⟨by simp [hlen], ?_⟩
    intro r0 hr0
    rcases List.mem_cons.mp hr0 with h0 | h0
    · subst h0
      exact extractForecastRecord_city city item r0 hre
    · exact hcities r0 h0

theorem prepareForecastCity_spec (city : String) (data : Json)
    (rs : List ForecastRecord) (h : prepareForecastCity city data = some rs) :
    rs.length = (forecastSlots data).length ∧ ∀ r ∈ rs, r.city = city := by
  unfold prepareForecastCity at h
  rcases harr : (data.getField "list").bind Json.getArr with _ | items <;>
    rw [harr] at h
  · exact Option.noConfusion h
  have := prepareForecastSlots_spec city items rs h
  refine ⟨?_, this.2⟩
  rw [this.1]
  simp [forecastSlots, harr]

theorem prepareForecast_cons (city : String) (data : Json)
    (rest : List (String × Json)) (df : List ForecastRecord)
    (h : prepareForecast ((city, data) :: rest) = some df) :
    ∃ rs rest2, prepareForecastCity city data = some rs ∧
      prepareForecast rest = some rest2 ∧ df = rs ++ rest2 := by
  simp only [prepareForecast] at h
  rcases hre : prepareForecastCity city data with _ | rs <;> rw [hre] at h
  · exact Option.noConfusion h
  rcases hrest : prepareForecast rest with _ | rest2 <;> rw [hrest] at h
  · exact Option.noConfusion h
  exact ⟨rs, rest2, rfl, rfl, (Option.some_inj.mp h).symm⟩

theorem countCityFor_append (df1 df2 : List ForecastRecord) (c : String) :
    countCityFor (df1 ++ df2) c = countCityFor df1 c + countCityFor df2 c := by
  simp [countCityFor, List.filter_append]

theorem countCityFor_eq_length (df : List ForecastRecord) (c : String)
    (h : ∀ r ∈ df, r.city = c) : countCityFor df c = df.length := by
  unfold countCityFor
  rw [List.filter_eq_self.mpr]
  intro r hr
  simp [h r hr]

theorem countCityFor_eq_zero (df : List ForecastRecord) (c : String)
    (h : ∀ r ∈ df, r.city ≠ c) : countCityFor df c = 0 := by
  unfold countCityFor
  rw [List.length_eq_zero, List.filter_eq_nil_iff]
  intro r hr
  simp [h r hr]

theorem prepareForecast_count (fd : List (String × Json)) :
    ∀ df : List ForecastRecord, prepareForecast fd = some df →
      (fd.map Prod.fst).Nodup → ∀ c : String,
      countCityFor df c =
        match dictLookup fd c with
        | some data => (forecastSlots data).length
        | none => 0 := by
  induction fd with
  | nil =>
    intro df h _ c
    simp only [prepareForecast, Option.some_inj] at h
    subst h
    simp [countCityFor, dictLookup]
  | cons p rest ih =>
    obtain ⟨k, data⟩ := p
    intro df h hnd c
    obtain ⟨rs, rest2, hre, hrest, hdf⟩ := prepareForecast_cons k data rest df h
    subst hdf
    obtain ⟨hlen, hcities⟩ := prepareForecastCity_spec k data rs hre
    have hnd1 : k ∉ rest.map Prod.fst := by
      simp only [List.map_cons, List.nodup_cons] at hnd
      exact hnd.1
    have hnd2 : (rest.map Prod.fst).Nodup := by
      simp only [List.map_cons, List.nodup_cons] at hnd
      exact hnd.2
    have ihc := ih rest2 hrest hnd2 c
    rw [countCityFor_append]
    by_cases hk : k = c
    · have hnone : dictLookup rest c = none :=
        (dictLookup_eq_none_iff rest c).mpr (hk ▸ hnd1)
      rw [hnone] at ihc
      have h2 : countCityFor rest2 c = 0 := ihc
      have h1 : countCityFor rs c = rs.length :=
        countCityFor_eq_length rs c (fun r hr => hk ▸ hcities r hr)
      rw [h1, h2, hlen]
      simp [dictLookup, hk]
    · have h1 : countCityFor rs c = 0 :=
        countCityFor_eq_zero rs c (fun r hr => (hcities r hr).symm ▸ hk)
      rw [h1, ihc]
      simp [dictLookup, hk]

theorem prepareForecast_cities (fd : List (String × Json)) :
    ∀ df : List ForecastRecord, prepareForecast fd = some df →
      ∀ r ∈ df, r.city ∈ fd.map Prod.fst := by
  induction fd with
  | nil =>
    intro df h r hr
    simp only [prepareForecast, Option.some_inj] at h
    subst h
    cases hr
  | cons p rest ih =>
    obtain ⟨k, data⟩ := p
    intro df h r hr
    obtain ⟨rs, rest2, hre, hrest, hdf⟩ := prepareForecast_cons k data rest df h
    subst hdf
    obtain ⟨_, hcities⟩ := prepareForecastCity_spec k data rs hre
    rcases List.mem_append.mp hr with h0 | h0
    · simp only [List.map_cons]
      exact List.mem_cons.mpr (Or.inl (hcities r h0))
    · simp only [List.map_cons]
      exact List.mem_cons_of_mem _ (ih rest2 hrest r h0)

theorem prepareData_eq (dash dash2 : WeatherDashboard)
    (h : prepareData dash = some dash2) :
    prepareCurrent dash.weatherData = some dash2.currentDf ∧
    prepareForecast dash.forecastData = some dash2.forecastDf ∧
    dash2.weatherData = dash.weatherData ∧
    dash2.forecastData = dash.forecastData ∧
    dash2.apiKey = dash.apiKey ∧ dash2.baseUrl = dash.baseUrl ∧
    dash2.cities = dash.cities := by
  unfold prepareData at h
  rcases hc : prepareCurrent dash.weatherData with _ | cur <;> rw [hc] at h
  · exact Option.noConfusion h
  rcases hf : prepareForecast dash.forecastData with _ | fc <;> rw [hf] at h
  · exact Option.noConfusion h
  have h2 := Option.some_inj.mp h
  subst h2
  exact ⟨rfl, rfl, rfl, rfl, rfl, rfl, rfl⟩

/-! ### Success of `prepare_data` is exactly field presence -/

theorem extractCurrent_isSome (c : String) (data : Json) :
    (extractCurrentRecord c data).isSome = hasCurrentFields data := by
  unfold extractCurrentRecord hasCurrentFields
  rcases getPath2 data "main" "temp" with _ | t <;>
  rcases getPath2 data "main" "feels_like" with _ | fl <;>
  rcases getPath2 data "main" "humidity" with _ | hu <;>
  rcases getPath2 data "main" "pressure" with _ | pr <;>
  rcases getPath2 data "wind" "speed" with _ | ws <;>
  rcases ((data.getField "weather").bind (fun w => w.getIdx 0)).bind
    (fun w0 => w0.getField "description") with _ | de <;>
  rcases (data.getField "dt").bind Json.getNum with _ | dt <;> rfl

theorem extractForecast_isSome (c : String) (item : Json) :
    (extractForecastRecord c item).isSome = hasSlotFields item := by
  unfold extractForecastRecord hasSlotFields
  rcases getPath2 item "main" "temp" with _ | t <;>
  rcases getPath2 item "main" "feels_like" with _ | fl <;>
  rcases getPath2 item "main" "humidity" with _ | hu <;>
  rcases getPath2 item "main" "pressure" with _ | pr <;>
  rcases getPath2 item "wind" "speed" with _ | ws <;>
  rcases ((item.getField "weather").bind (fun w => w.getIdx 0)).bind
    (fun w0 => w0.getField "description") with _ | de <;>
  rcases (item.getField "dt").bind Json.getNum with _ | dt <;>
  rcases item.getField "dt_txt" with _ | dtxt <;> rfl

theorem prepareCurrent_isSome (wd : List (String × Json)) :
    (prepareCurrent wd).isSome = wd.all (fun p => hasCurrentFields p.2) := by
  induction wd with
  | nil => rfl
  | cons p rest ih =>
    obtain ⟨k, data⟩ := p
    simp only [prepareCurrent, List.all_cons]
    rw [← extractCurrent_isSome k data, ← ih]
    rcases extractCurrentRecord k data with _ | r <;>
      rcases prepareCurrent rest with _ | rs <;> rfl

theorem prepareForecastSlots_isSome (c : String) (items : List Json) :
    (prepareForecastSlots c items).isSome = items.all hasSlotFields := by
  induction items with
  | nil => rfl
  | cons item rest ih =>
    simp only [prepareForecastSlots, List.all_cons]
    rw [← extractForecast_isSome c item, ← ih]
    rcases extractForecastRecord c item with _ | r <;>
      rcases prepareForecastSlots c rest with _ | rs <;> rfl

theorem prepareForecastCity_isSome (c : String) (data : Json) :
    (prepareForecastCity c data).isSome = hasForecastFields data := by
  unfold prepareForecastCity hasForecastFields
  rcases (data.getField "list").bind Json.getArr with _ | items
  · rfl
  · exact prepareForecastSlots_isSome c items

theorem prepareForecast_isSome (fd : List (String × Json)) :
    (prepareForecast fd).isSome = fd.all (fun p => hasForecastFields p.2) := by
  induction fd with
  | nil => rfl
  | cons p rest ih =>
    obtain ⟨k, data⟩ := p
    simp only [prepareForecast, List.all_cons]
    rw [← prepareForecastCity_isSome k data, ← ih]
    rcases prepareForecastCity k data with _ | rs <;>
      rcases prepareForecast rest with _ | rest2 <;> rfl

/-! ### Claim theorems -/

/-- C1: for every city list and every set of HTTP responses, after
`fetch_current_weather` on a fresh dashboard followed by `prepare_data`,
the current-weather table has exactly one row for each city whose fetch
returned status 200 (even if the city appears more than once in the
list), and no row for any city whose fetch returned a non-200 status. -/
theorem C1_current_table_one_row_per_fetched_city
    (dash : WeatherDashboard) (rsp : String → HttpResponse)
    (dash2 : WeatherDashboard) (hfresh : dash.weatherData = [])
    (hprep : prepareData (fetchCurrentWeather dash rsp).dash = some dash2) :
    (∀ city ∈ dash.cities,
      countCityCur dash2.currentDf city =
        if (rsp (currentWeatherUrl dash.baseUrl dash.apiKey city)).status = 200
        then 1 else 0) ∧
    (∀ r ∈ dash2.currentDf,
      r.city ∈ dash.cities ∧
      (rsp (currentWeatherUrl dash.baseUrl dash.apiKey r.city)).status = 200) := by
  simp only [fetchCurrentWeather, hfresh] at hprep
  have hdecomp := prepareData_eq _ _ hprep
  have hcur := hdecomp.1
  have hnodup : (((fetchLoop rsp (currentWeatherUrl dash.baseUrl dash.apiKey)
      currentErrMsg dash.cities []).data).map Prod.fst).Nodup :=
    fetchLoop_keys_nodup _ _ _ _ [] (by simp)
  constructor
  · intro city hcity
    have hcount := prepareCurrent_count _ _ hcur hnodup city
    rw [fetchLoop_data_lookup] at hcount
    by_cases hst :
        (rsp (currentWeatherUrl dash.baseUrl dash.apiKey city)).status = 200
    · simpa [hcity, hst, dictLookup] using hcount
    · simpa [hcity, hst, dictLookup] using hcount
  · intro r hr
    have hmem := prepareCurrent_cities _ _ hcur r hr
    have hlook : ¬ dictLookup (fetchLoop rsp
        (currentWeatherUrl dash.baseUrl dash.apiKey) currentErrMsg
        dash.cities []).data r.city = none := by
      rw [dictLookup_eq_none_iff]
      simpa using hmem
    rw [fetchLoop_data_lookup] at hlook
    by_cases hcond : r.city ∈ dash.cities ∧
        (rsp (currentWeatherUrl dash.baseUrl dash.apiKey r.city)).status = 200
    · exact hcond
    · simp [hcond, dictLookup] at hlook

/-- Witness for C1: one city, every request answered 200 with the sample
payload; the prepared table has exactly one Moscow row. -/
theorem C1_witness : countCityCur c1Prepared.currentDf "Moscow" = 1 := by
  have h := C1_current_table_one_row_per_fetched_city cexDash okCurRsp
    c1Prepared rfl rfl
  have h2 := h.1 "Moscow" (by decide)
  exact h2.trans (by decide)

/-- C2: for every city in the list, after `fetch_forecast` and
`prepare_data` the forecast table holds as many rows for that city as
the `list` array of its payload has slots, and zero rows when the fetch
returned a non-200 status; every forecast row belongs to a listed
city. -/
theorem C2_forecast_table_rows_per_city
    (dash : WeatherDashboard) (rsp : String → HttpResponse) (days : Nat)
    (dash2 : WeatherDashboard)
    (hprep : prepareData (fetchForecast dash rsp days).dash = some dash2) :
    (∀ city ∈ dash.cities,
      countCityFor dash2.forecastDf city =
        if (rsp (forecastUrl dash.baseUrl dash.apiKey city)).status = 200
        then (forecastSlots
          (rsp (forecastUrl dash.baseUrl dash.apiKey city)).body).length
        else 0) ∧
    (∀ r ∈ dash2.forecastDf, r.city ∈ dash.cities) := by
  simp only [fetchForecast] at hprep
  have hdecomp := prepareData_eq _ _ hprep
  have hfc := hdecomp.2.1
  have hnodup : (((fetchLoop rsp (forecastUrl dash.baseUrl dash.apiKey)
      forecastErrMsg dash.cities []).data).map Prod.fst).Nodup :=
    fetchLoop_keys_nodup _ _ _ _ [] (by simp)
  constructor
  · intro city hcity
    have hcount := prepareForecast_count _ _ hfc hnodup city
    rw [fetchLoop_data_lookup] at hcount
    by_cases hst : (rsp (forecastUrl dash.baseUrl dash.apiKey city)).status = 200
    · simpa [hcity, hst, dictLookup] using hcount
    · simpa [hcity, hst, dictLookup] using hcount
  · intro r hr
    have hmem := prepareForecast_cities _ _ hfc r hr
    have hlook : ¬ dictLookup (fetchLoop rsp
        (forecastUrl dash.baseUrl dash.apiKey) forecastErrMsg
        dash.cities []).data r.city = none := by
      rw [dictLookup_eq_none_iff]
      simpa using hmem
    rw [fetchLoop_data_lookup] at hlook
    by_cases hcond : r.city ∈ dash.cities ∧
        (rsp (forecastUrl dash.baseUrl dash.apiKey r.city)).status = 200
    · exact hcond.1
    · simp [hcond, dictLookup] at hlook

/-- Witness for C2: one city, forecast answered 200 with a two-slot
payload; the prepared forecast table has exactly two Moscow rows. -/
theorem C2_witness : countCityFor c2Prepared.forecastDf "Moscow" = 2 := by
  have h := C2_forecast_table_rows_per_city cexDash okForRsp 5 c2Prepared rfl
  have h2 := h.1 "Moscow" (by decide)
  exact h2.trans (by decide)

/-- C4 counterexample: in `badDtPayload` every field the claim lists is
present (`main.temp`, `main.feels_like`, `main.humidity`,
`main.pressure`, `wind.speed`, `weather[0].description`, `dt`), yet
`prepare_data` fails, because the string stored under `dt` is rejected
by `datetime.fromtimestamp`: the claim's direction "all fields present
implies prepare_data does not fail" is false of the code. -/
theorem C4_counterexample :
    claimedCurrentFieldsPresent badDtPayload = true ∧
    prepareData badDtDash = none := ⟨rfl, rfl⟩

/-- C4 (amended): `prepare_data` fails with an uncaught
`KeyError`-equivalent exactly when some stored payload misses one of the
dereferenced fields or violates the one value constraint the code does
impose: each `dt` must be a number (it is passed to
`datetime.fromtimestamp`) and `list` must be an array.  With all fields
present and those two constraints met, `prepare_data` does not fail; no
other leaf type is checked. -/
theorem C4_prepare_data_fails_iff_field_missing (dash : WeatherDashboard) :
    (prepareData dash).isSome =
      (dash.weatherData.all (fun p => hasCurrentFields p.2) &&
       dash.forecastData.all (fun p => hasForecastFields p.2)) := by
  unfold prepareData
  rw [← prepareCurrent_isSome, ← prepareForecast_isSome]
  rcases prepareCurrent dash.weatherData with _ | cur <;>
    rcases prepareForecast dash.forecastData with _ | fc <;> rfl

/-- C5: `prepare_data` rebuilds both tables from the raw payloads and
accumulates nothing: running it again on its own output reproduces the
output exactly. -/
theorem C5_prepare_data_idempotent (dash dash2 : WeatherDashboard)
    (h : prepareData dash = some dash2) : prepareData dash2 = some dash2 := by
  obtain ⟨hcur, hfc, hwd, hfd, _, _, _⟩ := prepareData_eq dash dash2 h
  unfold prepareData
  rw [hwd, hfd, hcur, hfc, ← hwd, ← hfd]

/-- Witness for C5 at the sample dashboard. -/
theorem C5_witness : prepareData sampleDashPrepared = some sampleDashPrepared :=
  C5_prepare_data_idempotent sampleDash sampleDashPrepared rfl

/-- C9: the `days` parameter of `fetch_forecast` is never read: any two
values produce identical requests, identical logs and identical
`forecast_data`. -/
theorem C9_fetch_forecast_ignores_days (dash : WeatherDashboard)
    (rsp : String → HttpResponse) (d1 d2 : Nat) :
    fetchForecast dash rsp d1 = fetchForecast dash rsp d2 := rfl

/-- C3 counterexample: a forecast fetch for Moscow answered 404 logs
`Error fetching forecast for Moscow: 404` — without the word `data` —
so the line `Error fetching forecast data for Moscow: 404` promised by
the claim is never printed. -/
theorem C3_counterexample :
    (cexRsp (forecastUrl cexDash.baseUrl cexDash.apiKey "Moscow")).status ≠ 200 ∧
    (fetchForecast cexDash cexRsp 5).logs =
      ["Error fetching forecast for Moscow: 404"] ∧
    "Error fetching forecast data for Moscow: 404" ∉
      (fetchForecast cexDash cexRsp 5).logs := by
  refine ⟨by decide, rfl, by decide⟩

/-- C3 (amended): on a non-200 status the current-weather fetcher logs
`Error fetching data for {city}: {status}` and the forecast fetcher logs
`Error fetching forecast for {city}: {status}`; neither raises, the
failed city gets no entry in the fetched mapping (starting from a fresh
one), and every other city whose fetch returned 200 is still stored. -/
theorem C3_amended_fetch_error_logging (dash : WeatherDashboard)
    (rsp : String → HttpResponse) (city : String)
    (hmem : city ∈ dash.cities)
    (hfresh : dash.weatherData = [])
    (hcur : (rsp (currentWeatherUrl dash.baseUrl dash.apiKey city)).status ≠ 200)
    (hfc : (rsp (forecastUrl dash.baseUrl dash.apiKey city)).status ≠ 200) :
    currentErrMsg city
        (rsp (currentWeatherUrl dash.baseUrl dash.apiKey city)).status ∈
      (fetchCurrentWeather dash rsp).logs ∧
    forecastErrMsg city
        (rsp (forecastUrl dash.baseUrl dash.apiKey city)).status ∈
      (fetchForecast dash rsp 5).logs ∧
    dictLookup (fetchCurrentWeather dash rsp).dash.weatherData city = none ∧
    dictLookup (fetchForecast dash rsp 5).dash.forecastData city = none ∧
    (∀ c2 ∈ dash.cities,
      (rsp (currentWeatherUrl dash.baseUrl dash.apiKey c2)).status = 200 →
      dictLookup (fetchCurrentWeather dash rsp).dash.weatherData c2 =
        some (rsp (currentWeatherUrl dash.baseUrl dash.apiKey c2)).body) := by
  refine ⟨?_, ?_, ?_, ?_, ?_⟩
  · simp only [fetchCurrentWeather]
    exact fetchLoop_logs_mem _ _ _ _ _ _ hmem hcur
  · simp only [fetchForecast]
    exact fetchLoop_logs_mem _ _ _ _ _ _ hmem hfc
  · simp only [fetchCurrentWeather, hfresh]
    rw [fetchLoop_data_lookup]
    simp [hcur, dictLookup]
  · simp only [fetchForecast]
    rw [fetchLoop_data_lookup]
    simp [hfc, dictLookup]
  · intro c2 hc2 hst
    simp only [fetchCurrentWeather]
    rw [fetchLoop_data_lookup]
    simp [hc2, hst]

/-- Witness for the amended C3 at concrete inputs. -/
theorem C3_amended_witness :
    currentErrMsg "Moscow"
        (cexRsp (currentWeatherUrl cexDash.baseUrl cexDash.apiKey "Moscow")).status ∈
      (fetchCurrentWeather cexDash cexRsp).logs ∧
    forecastErrMsg "Moscow"
        (cexRsp (forecastUrl cexDash.baseUrl cexDash.apiKey "Moscow")).status ∈
      (fetchForecast cexDash cexRsp 5).logs ∧
    dictLookup (fetchCurrentWeather cexDash cexRsp).dash.weatherData "Moscow" = none ∧
    dictLookup (fetchForecast cexDash cexRsp 5).dash.forecastData "Moscow" = none := by
  have h := C3_amended_fetch_error_logging cexDash cexRsp "Moscow"
    (by decide) rfl (by decide) (by decide)
  exact ⟨h.1, h.2.1, h.2.2.1, h.2.2.2.1⟩

/-- C6: the forecast trend chart plots exactly the rows of the forecast
table whose timestamp is at most `now + 5 days`; later rows are
excluded.  (Every row of the table produced by the pipeline belongs to a
listed city, which is the hypothesis.) -/
theorem C6_forecast_trend_window (dash : WeatherDashboard) (now : ℚ)
    (hcities : ∀ r ∈ dash.forecastDf, r.city ∈ dash.cities) :
    ∀ r : ForecastRecord,
      r ∈ visualizeForecastTrends dash now ↔
        (r ∈ dash.forecastDf ∧ r.timestamp ≤ now + 5 * 86400) := by
  intro r
  simp only [visualizeForecastTrends, List.mem_flatten, List.mem_map]
  constructor
  · rintro ⟨l, ⟨city, hcity, rfl⟩, hr⟩
    have h1 := List.mem_filter.mp hr
    have h2 := List.mem_filter.mp h1.1
    exact ⟨h2.1, by simpa using h2.2⟩
  · rintro ⟨hmem, hts⟩
    refine ⟨_, ⟨r.city, hcities r hmem, rfl⟩, ?_⟩
    exact List.mem_filter.mpr
      ⟨List.mem_filter.mpr ⟨hmem, by simpa using hts⟩, by simp⟩

/-- Witness for C6: with `now = 1700000000`, the row with timestamp
`1700000000` is plotted and the row with timestamp `1700500000`
(past `now + 432000`) is not. -/
theorem C6_witness :
    c6RowIn ∈ visualizeForecastTrends c6Dash 1700000000 ∧
    c6RowOut ∉ visualizeForecastTrends c6Dash 1700000000 := by
  have hcities : ∀ r ∈ c6Dash.forecastDf, r.city ∈ c6Dash.cities := by
    intro r hr
    rcases List.mem_cons.mp hr with h | h
    · subst h; exact List.mem_cons_self _ _
    rcases List.mem_cons.mp h with h2 | h2
    · subst h2; exact List.mem_cons_self _ _
    · exact absurd h2 (List.not_mem_nil r)
  have h := C6_forecast_trend_window c6Dash 1700000000 hcities
  constructor
  · exact (h c6RowIn).mpr
      ⟨List.mem_cons_self _ _, by with_unfolding_all decide⟩
  · intro hmem
    exact absurd ((h c6RowOut).mp hmem).2 (by with_unfolding_all decide)

/-- C7: the Markdown report generated for a row with temperature 20.5,
feels-like 19.8, humidity 60, wind 3.2 and description `clear sky` is
produced without error and contains the exact substrings
`Temperature**: 20.5°C (Feels like: 19.8°C)` and
`Description**: Clear sky`. -/
theorem C7_report_scenario :
    (createWeatherReport c7Dash "2023-11-14 22:00:00").map
      (fun rep =>
        strContains rep "Temperature**: 20.5°C (Feels like: 19.8°C)" &&
        strContains rep "Description**: Clear sky") = some true := by
  with_unfolding_all decide

/-- C8: `main` returns exit code 0 for every input; a missing API key
(neither `--api-key` nor `OPENWEATHER_API_KEY`) makes the constructor
raise the configuration error, which — like every other top-level
failure — is caught once at the entry point and printed together with
the usage-recovery message. -/
theorem C8_exit_code_always_zero (cliCities : List String)
    (apiKeyArg envKey : Option String) (rsp : String → HttpResponse) :
    (mainEntry cliCities apiKeyArg envKey rsp).exitCode = 0 ∧
    WeatherDashboard.init none none = .error apiKeyErrMsg ∧
    (∀ e : String, WeatherDashboard.init apiKeyArg envKey = .error e →
      (mainEntry cliCities apiKeyArg envKey rsp).output = errorOutput e) := by
  refine ⟨?_, rfl, ?_⟩
  · unfold mainEntry
    rcases WeatherDashboard.init apiKeyArg envKey with e | d0
    · rfl
    · dsimp only
      rcases runDashboard (List.foldl addCity d0 cliCities) rsp with e | ⟨d1, logs⟩
      · rfl
      · rfl
  · intro e he
    unfold mainEntry
    rw [he]

/-- Witness for C8: no key from either source; the process still exits 0
and prints the configuration error with the usage hint. -/
theorem C8_witness :
    (mainEntry ["Moscow"] none none cexRsp).exitCode = 0 ∧
    (mainEntry ["Moscow"] none none cexRsp).output = errorOutput apiKeyErrMsg := by
  have h := C8_exit_code_always_zero ["Moscow"] none none cexRsp
  exact ⟨h.1, h.2.2 apiKeyErrMsg h.2.1⟩

/-- C10: `fetch_current_weather` only adds or overwrites entries of
`weather_data` and never removes any (unlike `fetch_forecast`, which
resets its mapping): a payload stored by an earlier call survives a
later non-200 fetch for its city and still yields a current-weather
row, while a key absent from the city list never survives into the
freshly rebuilt forecast mapping. -/
theorem C10_weather_data_never_reset (dash : WeatherDashboard)
    (rsp : String → HttpResponse) (c : String) (p : Json)
    (dash2 : WeatherDashboard)
    (hold : dictLookup dash.weatherData c = some p)
    (hst : (rsp (currentWeatherUrl dash.baseUrl dash.apiKey c)).status ≠ 200)
    (hprep : prepareData (fetchCurrentWeather dash rsp).dash = some dash2) :
    dictLookup (fetchCurrentWeather dash rsp).dash.weatherData c = some p ∧
    (∃ r ∈ dash2.currentDf, r.city = c) ∧
    (∀ c2 : String, (dictLookup dash.weatherData c2).isSome →
      (dictLookup (fetchCurrentWeather dash rsp).dash.weatherData c2).isSome) ∧
    (∀ (d : WeatherDashboard) (r2 : String → HttpResponse) (days : Nat)
      (c3 : String), c3 ∉ d.cities →
      dictLookup (fetchForecast d r2 days).dash.forecastData c3 = none) := by
  have hpersist :
      dictLookup (fetchCurrentWeather dash rsp).dash.weatherData c = some p := by
    simp only [fetchCurrentWeather]
    rw [fetchLoop_data_lookup]
    simp [hst, hold]
  refine ⟨hpersist, ?_, ?_, ?_⟩
  · simp only [fetchCurrentWeather] at hprep hpersist
    have hdecomp := prepareData_eq _ _ hprep
    exact prepareCurrent_exists_row _ _ hdecomp.1 c (by simp [hpersist])
  · intro c2 hc2
    simp only [fetchCurrentWeather]
    rw [fetchLoop_data_lookup]
    by_cases hcond : c2 ∈ dash.cities ∧
        (rsp (currentWeatherUrl dash.baseUrl dash.apiKey c2)).status = 200
    · simp [hcond]
    · simpa [hcond] using hc2
  · intro d r2 days c3 hc3
    simp only [fetchForecast]
    rw [fetchLoop_data_lookup]
    simp [hc3, dictLookup]

/-- Witness for C10: the Moscow payload was stored earlier; a later
fetch answered 404 leaves it in place and `prepare_data` still emits
its row. -/
theorem C10_witness :
    dictLookup (fetchCurrentWeather staleDash cexRsp).dash.weatherData "Moscow" =
      some sampleCurrentPayload ∧
    (∃ r ∈ staleDashPrepared.currentDf, r.city = "Moscow") := by
  have h := C10_weather_data_never_reset staleDash cexRsp "Moscow"
    sampleCurrentPayload staleDashPrepared rfl (by decide) rfl
  exact ⟨h.1, h.2.1⟩

end WeatherDash
